import Mathlib

/-!
Verification development for top_tracks_cli (src/top_tracks_cli/main.go),
a CLI that synchronizes three Spotify playlists with the top tracks of a
user over three time windows.

Shallow embedding: the vendor API client is modelled by explicit inputs
(results of the remote calls) and by traces of the calls the program
issues. Go pointers are modelled by Option (nil is none); a nil pointer
dereference is a panic outcome. Machine-level concerns do not arise: the
program computes only on strings and lists.
-/

/-- A full track as returned by the API; only the ID field is read by the
program (track.ID in fillPlaylist and createPlaylist). -/
structure FullTrack where
  id : String
deriving DecidableEq

/-- spotify.FullTrackPage: the page of top tracks; the program only ranges
over page.Tracks. -/
structure FullTrackPage where
  tracks : List FullTrack
deriving DecidableEq

/-- spotify.SimplePlaylist, restricted to the fields main.go reads:
Name, ID, IsPublic, Collaborative, Description. -/
structure SimplePlaylist where
  name : String
  id : String
  isPublic : Bool
  collaborative : Bool
  description : String
deriving DecidableEq

/-- spotify.SimplePlaylistPage: the page of playlists of the current user;
the program only ranges over its Playlists field. -/
structure SimplePlaylistPage where
  playlists : List SimplePlaylist
deriving DecidableEq

/-- spotify.PrivateUser, restricted to the only field read (ID). -/
structure PrivateUser where
  id : String
deriving DecidableEq

/-- spotify.Range is a string type in the vendor SDK; these three constants
stand for spotify.ShortTermRange, spotify.MediumTermRange and
spotify.LongTermRange. The zero value of the type is the empty string. -/
def shortTermRange : String := "short_term"

def mediumTermRange : String := "medium_term"

def longTermRange : String := "long_term"

/-- The regex `^Favorite (Short|Medium|Long) Term Tracks$` (variable plMatch
in main.go). It is anchored at both ends and is a literal text with one
three-way alternation, so its language is exactly the three full strings:
the matcher tests the string against each branch of the alternation. -/
def plMatch (s : String) : Bool :=
  ["Short", "Medium", "Long"].any fun m => s == "Favorite " ++ m ++ " Term Tracks"

/-- The regex `^Favorite Short Term Tracks$` (variable shortTermRe): anchored
literal, so it matches exactly that one string. -/
def shortTermRe (s : String) : Bool :=
  s == "Favorite Short Term Tracks"

/-- The regex `^Favorite Medium Term Tracks$` (variable medTermRe). -/
def medTermRe (s : String) : Bool :=
  s == "Favorite Medium Term Tracks"

/-- The regex `^Favorite Long Term Tracks$` (variable longTermRe). -/
def longTermRe (s : String) : Bool :=
  s == "Favorite Long Term Tracks"

/-- One AddTracksToPlaylist network call as issued by fillPlaylist: the target
playlist ID, the single track ID passed, and whether the call succeeded. -/
structure AddCall where
  playlistId : String
  trackId : String
  ok : Bool
deriving DecidableEq

/-- The observable state of the remote API client for the fill flow: the trace
of AddTracksToPlaylist calls issued so far, and a tick counting them (used to
index the success oracle). -/
structure ApiState where
  calls : List AddCall
  tick : Nat
deriving DecidableEq

/-- c.AddTracksToPlaylist(ctx, playlistID, track.ID): issues one network call;
the oracle decides whether the nth call succeeds; the call is appended to the
trace. -/
def addTracksToPlaylist (oracle : Nat → Bool) (playlistID trackID : String)
    (s : ApiState) : Bool × ApiState :=
  let ok := oracle s.tick
  (ok, ⟨s.calls ++ [⟨playlistID, trackID, ok⟩], s.tick + 1⟩)

/-- Modelled from the spec: the stop signal of the backoff policy
(backoff.NewExponentialBackOff of the cenkalti/backoff dependency, which is
not part of this repository). Per the spec, "retries are unbounded" and the
wrapper retries "until success or unbounded failure", so the policy never
tells the retry loop to stop. -/
def backoffStop : Nat → Bool := fun _ => false

/-- Modelled from the spec: backoff.Retry(op, backoff.NewExponentialBackOff())
as used in fillPlaylist, where op is one AddTracksToPlaylist call. The retry
loop runs op; on success it returns Except.ok with the new state; on failure
it consults the stop signal (constantly false per the spec) and retries.
fuel bounds how many attempts we examine: none means the loop is still
retrying after fuel failed attempts. Except.error could only be produced by
the stop signal. -/
def backoffRetry (oracle : Nat → Bool) :
    Nat → String → String → ApiState → Option (Except String ApiState)
  | 0, _, _, _ => none
  | Nat.succ fuel, playlistID, trackID, s =>
    let r := addTracksToPlaylist oracle playlistID trackID s
    if r.1 then some (Except.ok r.2)
    else if backoffStop r.2.tick then some (Except.error "retry gave up")
    else backoffRetry oracle fuel playlistID trackID r.2

/-- Outcome of a fill (or fetch-then-fill) task: normal return with the final
API state, the error return branch, a Go runtime panic, or a retry loop that
has not terminated within the examined attempts. -/
inductive FillResult where
  | ok : ApiState → FillResult
  | error : String → FillResult
  | panic : String → FillResult
  | diverged : FillResult
deriving DecidableEq

/-- The loop body of fillPlaylist over page.Tracks: for each track, retry the
add call; a non-nil error from the retry takes the error return branch. -/
def fillTracks (oracle : Nat → Bool) (fuel : Nat) (playlistID : String) :
    List FullTrack → ApiState → FillResult
  | [], s => FillResult.ok s
  | t :: ts, s =>
    match backoffRetry oracle fuel playlistID t.id s with
    | none => FillResult.diverged
    | some (Except.error e) => FillResult.error e
    | some (Except.ok s1) => fillTracks oracle fuel playlistID ts s1

/-- fillPlaylist(ctx, c, playlistID, page): page is a Go pointer
(*spotify.FullTrackPage); ranging over page.Tracks dereferences it, so a nil
page panics before any call is issued. -/
def fillPlaylist (oracle : Nat → Bool) (fuel : Nat) (playlistID : String)
    (page : Option FullTrackPage) (s : ApiState) : FillResult :=
  match page with
  | none => FillResult.panic "invalid memory address or nil pointer dereference"
  | some pg => fillTracks oracle fuel playlistID pg.tracks s

/-- Does the retry wrapper report an error? (Its give-up branch.) -/
def retryIsError : Option (Except String ApiState) → Bool
  | some (Except.error _) => true
  | _ => false

/-- Does a fill task take its error return branch? -/
def fillIsError : FillResult → Bool
  | FillResult.error _ => true
  | _ => false

/-- The expected trace entry for one track: one successful add call carrying
the target playlist ID and that track ID. -/
def expectedCall (playlistID : String) (t : FullTrack) : AddCall :=
  ⟨playlistID, t.id, true⟩

/-- The locally defined playlist configuration (type playlistConfig in
main.go): name, visibility, description, collaborative flag, time range,
owning user (a Go pointer, so Option; nil is none) and remote ID. -/
structure playlistConfig where
  name : String
  isPublic : Bool
  description : String
  collaborative : Bool
  duration : String
  user : Option PrivateUser
  id : String
deriving DecidableEq

/-- The Go zero value of playlistConfig: empty strings, false flags, the
zero-value Range (empty string) and a nil user pointer. -/
def zeroConfig : playlistConfig :=
  ⟨"", false, "", false, "", none, ""⟩

/-- Method getTopTracks of playlistConfig: the API call
c.CurrentUsersTopTracks returns a pair (tracks, err), modelled by the two
inputs. A non-nil err is wrapped and returned; a nil tracks pointer is
reported on stdout and (nil, nil) is returned; otherwise the page is
returned. -/
def getTopTracks (apiTracks : Option FullTrackPage) (apiErr : Option String) :
    Except String (Option FullTrackPage) :=
  match apiErr with
  | some e => Except.error ("unable to retrieve users top tracks: " ++ e)
  | none =>
    match apiTracks with
    | none => Except.ok none
    | some tracks => Except.ok (some tracks)

/-- getTopTracksAndFill(ctx, wg, c, p): fetch the top tracks of the config,
propagate a fetch error, otherwise pass the (possibly nil) page straight to
fillPlaylist with the config ID. -/
def getTopTracksAndFill (apiTracks : Option FullTrackPage) (apiErr : Option String)
    (oracle : Nat → Bool) (fuel : Nat) (p : playlistConfig) (s : ApiState) :
    FillResult :=
  match getTopTracks apiTracks apiErr with
  | Except.error e => FillResult.error ("getTopTracks(): " ++ e)
  | Except.ok tt => fillPlaylist oracle fuel p.id tt s

/-- One playlist item of spotify.GetPlaylistItems; purgeTracks reads
v.Track.Track.ID of each item. -/
structure PlaylistItem where
  trackId : String
deriving DecidableEq

/-- The page returned by c.GetPlaylistItems; purgeTracks ranges over Items. -/
structure PlaylistItemPage where
  items : List PlaylistItem
deriving DecidableEq

/-- One RemoveTracksFromPlaylist network call: the playlist ID and the
variadic list of track IDs passed to it. -/
structure RemoveCall where
  playlistId : String
  trackIds : List String
deriving DecidableEq

/-- purgeTracks(ctx, c, playlist): fetch the items of the playlist (the
fetchItems input models the result of c.GetPlaylistItems); on error return
it; otherwise collect every item track ID, issue one
RemoveTracksFromPlaylist call with all of them, and return nil — the error
of the remove call is assigned to err and then discarded by the
`return nil` on the last line of the function. The removeFails input models
whether that remove call fails; the returned list is the trace of remove
calls issued. -/
def purgeTracks (fetchItems : Except String PlaylistItemPage) (removeFails : Bool)
    (playlist : SimplePlaylist) : Except String Unit × List RemoveCall :=
  match fetchItems with
  | Except.error e => (Except.error e, [])
  | Except.ok plTracks =>
    let plTrackIDs := plTracks.items.map (fun v => v.trackId)
    let err : Option String := if removeFails then some "remove failed" else none
    (Except.ok (), [⟨playlist.id, plTrackIDs⟩])

/-- One CreatePlaylistForUser network call: user ID, playlist name,
description, public flag, collaborative flag, in the order the Go call
passes them. -/
structure CreateCall where
  userId : String
  name : String
  description : String
  isPublic : Bool
  collaborative : Bool
deriving DecidableEq

/-- The three playlist names created by getAutomatedPlaylists when none is
found (variable playlistNames). -/
def automatedPlaylistNames : List String :=
  ["Favorite Short Term Tracks", "Favorite Medium Term Tracks", "Favorite Long Term Tracks"]

/-- The description used for created playlists. -/
def automatedDescription : String := "automated from top_tracks_cli"

/-- The creation loop of getAutomatedPlaylists: for each name call
c.CreatePlaylistForUser(ctx, user.ID, name, description, false, false); the
create input models the API result for a given name; on error the function
returns nil and the wrapped error; on success the created playlist (its
SimplePlaylist part) is appended. The second component is the trace of
create calls issued. -/
def createLoop (create : String → Except String SimplePlaylist) (user : PrivateUser)
    (description : String) :
    List String → List SimplePlaylist → List CreateCall →
    Except String (List SimplePlaylist) × List CreateCall
  | [], acc, calls => (Except.ok acc, calls)
  | n :: ns, acc, calls =>
    match create n with
    | Except.error e =>
      (Except.error ("CreatePlaylistForUser: " ++ e),
        calls ++ [⟨user.id, n, description, false, false⟩])
    | Except.ok pl =>
      createLoop create user description ns (acc ++ [pl])
        (calls ++ [⟨user.id, n, description, false, false⟩])

/-- getAutomatedPlaylists(ctx, c, user, playlists): filter the playlists of
the user by the plMatch regex; if none matched, create the three automated
playlists (non-public, non-collaborative, with the fixed description) and
return those; otherwise return the matching ones. The second component is
the trace of CreatePlaylistForUser calls issued. -/
def getAutomatedPlaylists (create : String → Except String SimplePlaylist)
    (user : PrivateUser) (playlists : SimplePlaylistPage) :
    Except String (List SimplePlaylist) × List CreateCall :=
  let foundPlaylists := playlists.playlists.filter (fun v => plMatch v.name)
  if foundPlaylists.isEmpty then
    createLoop create user automatedDescription automatedPlaylistNames [] []
  else
    (Except.ok foundPlaylists, [])

/-- The playlistConfig literal built in the fill branch of main for a matched
playlist v: the fields of v, the given duration, the current user and the
ID of v. -/
def configFromPlaylist (user : PrivateUser) (duration : String)
    (v : SimplePlaylist) : playlistConfig :=
  ⟨v.name, v.isPublic, v.description, v.collaborative, duration, some user, v.id⟩

/-- One iteration of the config-building loop in the fill branch of main:
the three regexes are tested against the playlist name and the matching
configs are overwritten. -/
def configStep (user : PrivateUser)
    (cfgs : playlistConfig × playlistConfig × playlistConfig)
    (v : SimplePlaylist) : playlistConfig × playlistConfig × playlistConfig :=
  let s := if shortTermRe v.name then configFromPlaylist user shortTermRange v else cfgs.1
  let m := if medTermRe v.name then configFromPlaylist user mediumTermRange v else cfgs.2.1
  let l := if longTermRe v.name then configFromPlaylist user longTermRange v else cfgs.2.2
  (s, m, l)

/-- The config-building loop of the fill branch of main: the three configs
start as Go zero values and are overwritten by each matching playlist. -/
def buildConfigs (user : PrivateUser) (pls : List SimplePlaylist) :
    playlistConfig × playlistConfig × playlistConfig :=
  pls.foldl (configStep user) (zeroConfig, zeroConfig, zeroConfig)

/-- The three configs main hands to the three fetch-then-fill goroutines in
the fill branch, in order short, medium, long; all three are submitted
unconditionally. -/
def fillModeConfigs (user : PrivateUser) (automated : List SimplePlaylist) :
    List playlistConfig :=
  [(buildConfigs user automated).1, (buildConfigs user automated).2.1,
   (buildConfigs user automated).2.2]

/-- Analysis helper: the generic shape of one component of the
config-building loop, overwriting the accumulator with the last playlist
whose name the regex accepts. -/
def lastMatchConfig (re : String → Bool) (duration : String) (user : PrivateUser)
    (pls : List SimplePlaylist) (c : playlistConfig) : playlistConfig :=
  pls.foldl (fun acc v => if re v.name then configFromPlaylist user duration v else acc) c

/-- Witness data: a user. -/
def wUser : PrivateUser := ⟨"user1"⟩

/-- Witness data: the short-term automated playlist. -/
def wShortPl : SimplePlaylist := ⟨"Favorite Short Term Tracks", "id-short", false, false, ""⟩

/-- Witness data: the medium-term automated playlist. -/
def wMedPl : SimplePlaylist := ⟨"Favorite Medium Term Tracks", "id-med", false, false, ""⟩

/-- Witness data: the long-term automated playlist. -/
def wLongPl : SimplePlaylist := ⟨"Favorite Long Term Tracks", "id-long", false, false, ""⟩

/-- Witness data: an unrelated playlist whose name does not match. -/
def wOtherPl : SimplePlaylist := ⟨"My Mix", "id-other", true, false, "misc"⟩

/-- Witness data: a create API that succeeds, returning a playlist named as
requested. -/
def wCreate : String → Except String SimplePlaylist :=
  fun n => Except.ok ⟨n, "created-" ++ n, false, false, automatedDescription⟩

/-- Witness data: a playlist page holding only the short-term playlist. -/
def wPageShortOnly : SimplePlaylistPage := ⟨[wShortPl]⟩

/-- Witness data: a playlist page with no matching playlist. -/
def wPageNoMatch : SimplePlaylistPage := ⟨[wOtherPl]⟩

/-- Claim C4: the plMatch regex accepts exactly the three automated playlist
names and rejects every other string; containment is not enough because the
regex is anchored at both ends. -/
theorem c4_plMatch_exactly_three_names (s : String) :
    plMatch s = true ↔
      s = "Favorite Short Term Tracks" ∨ s = "Favorite Medium Term Tracks" ∨
        s = "Favorite Long Term Tracks" := by
  simp [plMatch]

/-- Helper: plMatch rejects a string that merely contains a matched name. -/
theorem plMatch_rejects_containment :
    plMatch "xFavorite Short Term Tracksx" = false := by decide

/-- Helper: with an always-succeeding API, fillTracks issues exactly one
successful add call per track in list order, each carrying the playlist ID
and that track ID. -/
theorem fillTracks_allOk (playlistID : String) (ts : List FullTrack) (s : ApiState) :
    fillTracks (fun _ => true) 1 playlistID ts s =
      FillResult.ok ⟨s.calls ++ ts.map (expectedCall playlistID), s.tick + ts.length⟩ := by
  induction ts generalizing s with
  | nil => simp [fillTracks]
  | cons t ts ih =>
    simp only [fillTracks, backoffRetry, addTracksToPlaylist, backoffStop, List.map_cons,
      List.length_cons, if_true]
    rw [ih]
    simp [expectedCall, List.append_assoc]
    omega

/-- Claim C1: for every fetched track page, fillPlaylist issues exactly one
add-tracks API call per track of the page, in page order, each call carrying
the ID of that track and the target playlist ID (here with every call
succeeding; retries of failed calls are the subject of C2). -/
theorem c1_fill_one_add_call_per_track (playlistID : String) (page : FullTrackPage) :
    fillPlaylist (fun _ => true) 1 playlistID (some page) ⟨[], 0⟩ =
      FillResult.ok ⟨page.tracks.map (expectedCall playlistID), page.tracks.length⟩ := by
  have h := fillTracks_allOk playlistID page.tracks ⟨[], 0⟩
  simpa [fillPlaylist] using h

/-- Helper: the retry wrapper never reports an error, whatever the oracle:
its give-up branch would need the stop signal, which is constantly false. -/
theorem retry_no_error (oracle : Nat → Bool) (fuel : Nat) (playlistID trackID : String)
    (s : ApiState) :
    retryIsError (backoffRetry oracle fuel playlistID trackID s) = false := by
  induction fuel generalizing s with
  | zero => rfl
  | succ fuel ih =>
    simp only [backoffRetry, addTracksToPlaylist, backoffStop]
    by_cases h : oracle s.tick = true
    · simp [h, retryIsError]
    · simp only [h, Bool.false_eq_true, if_false, if_neg]
      exact ih _

/-- Helper: fillTracks never takes its error return branch. -/
theorem fillTracks_no_error (oracle : Nat → Bool) (fuel : Nat) (playlistID : String)
    (ts : List FullTrack) (s : ApiState) :
    fillIsError (fillTracks oracle fuel playlistID ts s) = false := by
  induction ts generalizing s with
  | nil => rfl
  | cons t ts ih =>
    simp only [fillTracks]
    cases h : backoffRetry oracle fuel playlistID t.id s with
    | none => rfl
    | some r =>
      cases r with
      | error e =>
        have hne := retry_no_error oracle fuel playlistID t.id s
        rw [h] at hne
        simp [retryIsError] at hne
      | ok s1 => exact ih s1

/-- Claim C2: for every track, the add-tracks call is retried until success:
the retry wrapper never gives up after finitely many failures (its error
result is unreachable), so the error return branch of fillPlaylist after the
retry is unreachable as well, for every oracle of call outcomes. -/
theorem c2_retry_never_gives_up (oracle : Nat → Bool) (fuel : Nat)
    (playlistID trackID : String) (s : ApiState) (page : Option FullTrackPage)
    (s2 : ApiState) :
    retryIsError (backoffRetry oracle fuel playlistID trackID s) = false ∧
      fillIsError (fillPlaylist oracle fuel playlistID page s2) = false := by
  refine ⟨retry_no_error oracle fuel playlistID trackID s, ?_⟩
  cases page with
  | none => rfl
  | some pg => exact fillTracks_no_error oracle fuel playlistID pg.tracks s2

/-- Claim C3: purgeTracks collects the ID of every item returned by the
playlist-items fetch and issues exactly one remove call containing exactly
those IDs, against the ID of the given playlist. -/
theorem c3_purge_removes_all_listed_ids (page : PlaylistItemPage) (removeFails : Bool)
    (playlist : SimplePlaylist) :
    purgeTracks (Except.ok page) removeFails playlist =
      (Except.ok (), [⟨playlist.id, page.items.map (fun v => v.trackId)⟩]) := rfl

/-- Claim C5 is false on the code (code bug): when the remove call of a purge
fails, purgeTracks still returns nil, because the error of
RemoveTracksFromPlaylist is assigned and then discarded by the final
`return nil`; so the failure is neither reported nor does the process exit.
Concrete failing input: a playlist with two listed tracks and a failing
remove call. -/
theorem c5_purge_remove_error_swallowed :
    purgeTracks (Except.ok ⟨[⟨"track1"⟩, ⟨"track2"⟩]⟩) true
        ⟨"Favorite Short Term Tracks", "pl1", false, false, ""⟩ =
      (Except.ok (), [⟨"pl1", ["track1", "track2"]⟩]) := rfl

/-- Claim C9: when the top-tracks API returns a nil page and no error,
getTopTracks returns (nil, nil), and getTopTracksAndFill passes the nil page
to fillPlaylist, whose range over page.Tracks dereferences the nil pointer
and panics: the nil-page branch is not handled safely. -/
theorem c9_nil_page_panics (oracle : Nat → Bool) (fuel : Nat) (p : playlistConfig)
    (s : ApiState) :
    getTopTracks none none = Except.ok none ∧
      getTopTracksAndFill none none oracle fuel p s =
        FillResult.panic "invalid memory address or nil pointer dereference" :=
  ⟨rfl, rfl⟩

/-- Helper: a filtered list is empty exactly when no element passes the
predicate. -/
theorem filter_isEmpty_eq (l : List SimplePlaylist) (p : SimplePlaylist → Bool) :
    (l.filter p).isEmpty = !(l.any p) := by
  induction l with
  | nil => rfl
  | cons h t ih =>
    by_cases hp : p h = true <;>
      simp [List.filter_cons, List.any_cons, hp, ih]

/-- Helper: when some playlist name matches, getAutomatedPlaylists returns
exactly the matching playlists and creates nothing. -/
theorem getAutomatedPlaylists_found (create : String → Except String SimplePlaylist)
    (user : PrivateUser) (page : SimplePlaylistPage)
    (h : page.playlists.any (fun v => plMatch v.name) = true) :
    getAutomatedPlaylists create user page =
      (Except.ok (page.playlists.filter (fun v => plMatch v.name)), []) := by
  simp only [getAutomatedPlaylists]
  rw [filter_isEmpty_eq, h]
  rfl

/-- Claim C6: getAutomatedPlaylists returns exactly the playlists of the user
whose names match the automated-playlist regex; and when no name matches, it
issues three create calls for the names Favorite Short/Medium/Long Term
Tracks, each non-public, non-collaborative and with the fixed description,
and returns the three created playlists. -/
theorem c6_automated_playlists_found_or_created
    (create : String → Except String SimplePlaylist) (user : PrivateUser)
    (page : SimplePlaylistPage) :
    (page.playlists.any (fun v => plMatch v.name) = true →
      getAutomatedPlaylists create user page =
        (Except.ok (page.playlists.filter (fun v => plMatch v.name)), [])) ∧
    (page.playlists.any (fun v => plMatch v.name) = false →
      ∀ p1 p2 p3 : SimplePlaylist,
        create "Favorite Short Term Tracks" = Except.ok p1 →
        create "Favorite Medium Term Tracks" = Except.ok p2 →
        create "Favorite Long Term Tracks" = Except.ok p3 →
        getAutomatedPlaylists create user page =
          (Except.ok [p1, p2, p3],
            [⟨user.id, "Favorite Short Term Tracks", automatedDescription, false, false⟩,
             ⟨user.id, "Favorite Medium Term Tracks", automatedDescription, false, false⟩,
             ⟨user.id, "Favorite Long Term Tracks", automatedDescription, false, false⟩])) := by
  refine ⟨getAutomatedPlaylists_found create user page, ?_⟩
  intro h p1 p2 p3 h1 h2 h3
  simp only [getAutomatedPlaylists]
  rw [filter_isEmpty_eq, h]
  simp [createLoop, automatedPlaylistNames, h1, h2, h3]

/-- Witness for C6: on a page with one matching playlist nothing is created
and the match is returned; on a page with no match the three playlists are
created with the fixed parameters and returned. -/
theorem c6_witness :
    getAutomatedPlaylists wCreate wUser wPageShortOnly = (Except.ok [wShortPl], []) ∧
    getAutomatedPlaylists wCreate wUser wPageNoMatch =
      (Except.ok
        [⟨"Favorite Short Term Tracks", "created-Favorite Short Term Tracks", false, false,
           automatedDescription⟩,
         ⟨"Favorite Medium Term Tracks", "created-Favorite Medium Term Tracks", false, false,
           automatedDescription⟩,
         ⟨"Favorite Long Term Tracks", "created-Favorite Long Term Tracks", false, false,
           automatedDescription⟩],
        [⟨"user1", "Favorite Short Term Tracks", automatedDescription, false, false⟩,
         ⟨"user1", "Favorite Medium Term Tracks", automatedDescription, false, false⟩,
         ⟨"user1", "Favorite Long Term Tracks", automatedDescription, false, false⟩]) := by
  constructor
  · have h := (c6_automated_playlists_found_or_created wCreate wUser wPageShortOnly).1 (by decide)
    simpa [wPageShortOnly, wShortPl] using h
  · have h := (c6_automated_playlists_found_or_created wCreate wUser wPageNoMatch).2 (by decide)
      _ _ _ rfl rfl rfl
    simpa [wCreate, wUser] using h

/-- Helper: the first component of the config-building fold is the generic
last-match fold for the short-term regex. -/
theorem foldl_configStep_fst (user : PrivateUser) (pls : List SimplePlaylist)
    (c : playlistConfig × playlistConfig × playlistConfig) :
    (pls.foldl (configStep user) c).1 =
      lastMatchConfig shortTermRe shortTermRange user pls c.1 := by
  induction pls generalizing c with
  | nil => rfl
  | cons v t ih =>
    simp only [List.foldl_cons, lastMatchConfig] at *
    rw [ih]
    rfl

/-- Helper: the second component of the config-building fold is the generic
last-match fold for the medium-term regex. -/
theorem foldl_configStep_snd (user : PrivateUser) (pls : List SimplePlaylist)
    (c : playlistConfig × playlistConfig × playlistConfig) :
    (pls.foldl (configStep user) c).2.1 =
      lastMatchConfig medTermRe mediumTermRange user pls c.2.1 := by
  induction pls generalizing c with
  | nil => rfl
  | cons v t ih =>
    simp only [List.foldl_cons, lastMatchConfig] at *
    rw [ih]
    rfl

/-- Helper: the third component of the config-building fold is the generic
last-match fold for the long-term regex. -/
theorem foldl_configStep_thd (user : PrivateUser) (pls : List SimplePlaylist)
    (c : playlistConfig × playlistConfig × playlistConfig) :
    (pls.foldl (configStep user) c).2.2 =
      lastMatchConfig longTermRe longTermRange user pls c.2.2 := by
  induction pls generalizing c with
  | nil => rfl
  | cons v t ih =>
    simp only [List.foldl_cons, lastMatchConfig] at *
    rw [ih]
    rfl

/-- Helper: when no playlist name matches, the last-match fold keeps its
initial value. -/
theorem lastMatchConfig_nomatch (re : String → Bool) (duration : String)
    (user : PrivateUser) (pls : List SimplePlaylist) (c : playlistConfig)
    (h : ∀ v ∈ pls, re v.name = false) :
    lastMatchConfig re duration user pls c = c := by
  induction pls generalizing c with
  | nil => rfl
  | cons v t ih =>
    have hv := h v (List.mem_cons_self v t)
    simp only [lastMatchConfig, List.foldl_cons, hv, Bool.false_eq_true, if_false, if_neg]
    exact ih c (fun q hq => h q (List.mem_cons_of_mem _ hq))

/-- Helper: when a unique playlist of the list matches the regex, the
last-match fold produces exactly the config built from it. -/
theorem lastMatchConfig_unique (re : String → Bool) (duration : String)
    (user : PrivateUser) (p : SimplePlaylist) :
    ∀ (pls : List SimplePlaylist) (c : playlistConfig), p ∈ pls → re p.name = true →
      (∀ q ∈ pls, re q.name = true → q = p) →
      lastMatchConfig re duration user pls c = configFromPlaylist user duration p := by
  intro pls
  induction pls with
  | nil => intro c hmem _ _; cases hmem
  | cons v t ih =>
    intro c hmem hp huniq
    by_cases hAny : t.any (fun q => re q.name) = true
    · obtain ⟨q, hq, hrq⟩ := List.any_eq_true.mp hAny
      have hq_eq : q = p := huniq q (List.mem_cons_of_mem _ hq) hrq
      have hpt : p ∈ t := hq_eq ▸ hq
      have hstep : lastMatchConfig re duration user (v :: t) c =
          lastMatchConfig re duration user t
            (if re v.name then configFromPlaylist user duration v else c) := rfl
      rw [hstep]
      exact ih _ hpt hp (fun r hr hrr => huniq r (List.mem_cons_of_mem _ hr) hrr)
    · have hnone : ∀ q ∈ t, re q.name = false := by
        intro q hq
        by_contra hqq
        have hqt : re q.name = true := by
          revert hqq; cases re q.name <;> simp
        exact hAny (List.any_eq_true.mpr ⟨q, hq, hqt⟩)
      have hpv : p = v := by
        rcases List.mem_cons.mp hmem with h | h
        · exact h
        · rw [hnone p h] at hp; cases hp
      have hv : re v.name = true := by rw [← hpv]; exact hp
      have hstep : lastMatchConfig re duration user (v :: t) c =
          lastMatchConfig re duration user t (configFromPlaylist user duration v) := by
        simp [lastMatchConfig, List.foldl_cons, hv]
      rw [hstep, lastMatchConfig_nomatch re duration user t _ hnone, hpv]

/-- Claim C7: in fill mode each time range is mapped to its playlist by name:
when the list of automated playlists contains a unique playlist for each of
the three names, the short config is built from the short-named playlist
with the short-term range, and likewise for medium and long, each config
carrying the ID of its own playlist. -/
theorem c7_configs_mapped_by_name (user : PrivateUser) (pls : List SimplePlaylist)
    (ps pm pl : SimplePlaylist)
    (hs : ps ∈ pls) (hsn : shortTermRe ps.name = true)
    (hsu : ∀ q ∈ pls, shortTermRe q.name = true → q = ps)
    (hm : pm ∈ pls) (hmn : medTermRe pm.name = true)
    (hmu : ∀ q ∈ pls, medTermRe q.name = true → q = pm)
    (hl : pl ∈ pls) (hln : longTermRe pl.name = true)
    (hlu : ∀ q ∈ pls, longTermRe q.name = true → q = pl) :
    (buildConfigs user pls).1 = configFromPlaylist user shortTermRange ps ∧
    (buildConfigs user pls).1.id = ps.id ∧
    (buildConfigs user pls).2.1 = configFromPlaylist user mediumTermRange pm ∧
    (buildConfigs user pls).2.1.id = pm.id ∧
    (buildConfigs user pls).2.2 = configFromPlaylist user longTermRange pl ∧
    (buildConfigs user pls).2.2.id = pl.id := by
  have h1 : (buildConfigs user pls).1 = configFromPlaylist user shortTermRange ps := by
    rw [buildConfigs, foldl_configStep_fst]
    exact lastMatchConfig_unique shortTermRe shortTermRange user ps pls _ hs hsn hsu
  have h2 : (buildConfigs user pls).2.1 = configFromPlaylist user mediumTermRange pm := by
    rw [buildConfigs, foldl_configStep_snd]
    exact lastMatchConfig_unique medTermRe mediumTermRange user pm pls _ hm hmn hmu
  have h3 : (buildConfigs user pls).2.2 = configFromPlaylist user longTermRange pl := by
    rw [buildConfigs, foldl_configStep_thd]
    exact lastMatchConfig_unique longTermRe longTermRange user pl pls _ hl hln hlu
  exact ⟨h1, by rw [h1]; rfl, h2, by rw [h2]; rfl, h3, by rw [h3]; rfl⟩


/-- Witness for C7: with the three automated playlists present, each config
is built from its namesake playlist, with its range and its ID. -/
theorem c7_witness :
    (buildConfigs wUser [wShortPl, wMedPl, wLongPl]).1 =
      configFromPlaylist wUser shortTermRange wShortPl ∧
    (buildConfigs wUser [wShortPl, wMedPl, wLongPl]).1.id = wShortPl.id ∧
    (buildConfigs wUser [wShortPl, wMedPl, wLongPl]).2.1 =
      configFromPlaylist wUser mediumTermRange wMedPl ∧
    (buildConfigs wUser [wShortPl, wMedPl, wLongPl]).2.1.id = wMedPl.id ∧
    (buildConfigs wUser [wShortPl, wMedPl, wLongPl]).2.2 =
      configFromPlaylist wUser longTermRange wLongPl ∧
    (buildConfigs wUser [wShortPl, wMedPl, wLongPl]).2.2.id = wLongPl.id :=
  c7_configs_mapped_by_name wUser [wShortPl, wMedPl, wLongPl] wShortPl wMedPl wLongPl
    (by simp) (by decide) (by decide)
    (by simp) (by decide) (by decide)
    (by simp) (by decide) (by decide)

/-- Claim C10: when at least one but not all expected playlists exist,
getAutomatedPlaylists returns only the matching ones and creates none; a
time range with no matching playlist keeps its zero-value config (empty
playlist ID, zero-value range, nil user), and all three configs are still
submitted to the fetch-then-fill tasks. -/
theorem c10_incomplete_match_zero_configs
    (create : String → Except String SimplePlaylist) (user : PrivateUser)
    (page : SimplePlaylistPage)
    (h : page.playlists.any (fun v => plMatch v.name) = true) :
    getAutomatedPlaylists create user page =
      (Except.ok (page.playlists.filter (fun v => plMatch v.name)), []) ∧
    ((page.playlists.filter (fun v => plMatch v.name)).any
        (fun q => shortTermRe q.name) = false →
      (buildConfigs user (page.playlists.filter (fun v => plMatch v.name))).1 =
        zeroConfig) ∧
    ((page.playlists.filter (fun v => plMatch v.name)).any
        (fun q => medTermRe q.name) = false →
      (buildConfigs user (page.playlists.filter (fun v => plMatch v.name))).2.1 =
        zeroConfig) ∧
    ((page.playlists.filter (fun v => plMatch v.name)).any
        (fun q => longTermRe q.name) = false →
      (buildConfigs user (page.playlists.filter (fun v => plMatch v.name))).2.2 =
        zeroConfig) ∧
    fillModeConfigs user (page.playlists.filter (fun v => plMatch v.name)) =
      [(buildConfigs user (page.playlists.filter (fun v => plMatch v.name))).1,
       (buildConfigs user (page.playlists.filter (fun v => plMatch v.name))).2.1,
       (buildConfigs user (page.playlists.filter (fun v => plMatch v.name))).2.2] := by
  refine ⟨getAutomatedPlaylists_found create user page h, ?_, ?_, ?_, rfl⟩
  · intro hno
    have hnone : ∀ v ∈ page.playlists.filter (fun v => plMatch v.name),
        shortTermRe v.name = false := by
      intro v hv
      by_contra hvv
      have hvt : shortTermRe v.name = true := by
        revert hvv; cases shortTermRe v.name <;> simp
      rw [List.any_eq_true.mpr ⟨v, hv, hvt⟩] at hno
      cases hno
    rw [buildConfigs, foldl_configStep_fst]
    exact lastMatchConfig_nomatch _ _ _ _ _ hnone
  · intro hno
    have hnone : ∀ v ∈ page.playlists.filter (fun v => plMatch v.name),
        medTermRe v.name = false := by
      intro v hv
      by_contra hvv
      have hvt : medTermRe v.name = true := by
        revert hvv; cases medTermRe v.name <;> simp
      rw [List.any_eq_true.mpr ⟨v, hv, hvt⟩] at hno
      cases hno
    rw [buildConfigs, foldl_configStep_snd]
    exact lastMatchConfig_nomatch _ _ _ _ _ hnone
  · intro hno
    have hnone : ∀ v ∈ page.playlists.filter (fun v => plMatch v.name),
        longTermRe v.name = false := by
      intro v hv
      by_contra hvv
      have hvt : longTermRe v.name = true := by
        revert hvv; cases longTermRe v.name <;> simp
      rw [List.any_eq_true.mpr ⟨v, hv, hvt⟩] at hno
      cases hno
    rw [buildConfigs, foldl_configStep_thd]
    exact lastMatchConfig_nomatch _ _ _ _ _ hnone

/-- Witness for C10: with only the short-term playlist existing, nothing is
created, the medium and long configs keep their zero values, and all three
configs are still submitted. -/
theorem c10_witness :
    getAutomatedPlaylists wCreate wUser wPageShortOnly = (Except.ok [wShortPl], []) ∧
    (buildConfigs wUser [wShortPl]).2.1 = zeroConfig ∧
    (buildConfigs wUser [wShortPl]).2.2 = zeroConfig ∧
    fillModeConfigs wUser [wShortPl] =
      [(buildConfigs wUser [wShortPl]).1, (buildConfigs wUser [wShortPl]).2.1,
       (buildConfigs wUser [wShortPl]).2.2] := by
  have h := c10_incomplete_match_zero_configs wCreate wUser wPageShortOnly (by decide)
  have hfilter : wPageShortOnly.playlists.filter (fun v => plMatch v.name) = [wShortPl] := by
    decide
  rw [hfilter] at h
  exact ⟨h.1, h.2.2.1 (by decide), h.2.2.2.1 (by decide), h.2.2.2.2⟩
